import Mathlib

/-!
Verification of the Text-analytics-music-rec recommendation pipeline.

Shallow embedding of the Python sources:
 - `src/tools/time_of_day_matcher.py` (TimeOfDayMatcher)
 - `src/memory/long_term.py` (LongTermMemory)
 - `src/agents/curator.py` (CuratorAgent)
 - `src/reranker/cohere_reranker.py` (CohereReranker)
 - `src/recommendation_system.py` (MusicRecommendationSystem)
 - `config.py` (constants)

Python floats are modelled by `ℚ`; Python dicts by association lists (first
binding wins on lookup, keys listed in insertion order); a value that may be
absent or `None` by `Option`.  External services (the Qdrant retriever, the
song database, the Cohere rerank endpoint, the wall clock) are inputs of the
embedded functions.
-/

namespace MusicRec

/-- Lookup in an association-list model of a Python dict: `d.get(k, default)`. -/
def lookupD (d : List (String × ℚ)) (k : String) (default : ℚ) : ℚ :=
  ((d.lookup k).getD default)

/-- `np.mean` on a nonempty list of rationals (callers guard nonemptiness). -/
def listMean (xs : List ℚ) : ℚ := xs.sum / xs.length

/-! ## config.py -/

/-- `config.py`: ideal-feature/weight settings of one time-of-day period. -/
structure PeriodConfig where
  hourStart : Nat
  hourEnd : Nat
  idealEnergy : ℚ
  idealValence : ℚ
  weight : ℚ
  deriving Repr, DecidableEq

/-- `config.TIME_OF_DAY_FEATURES`, in dict insertion order. -/
def TIME_OF_DAY_FEATURES : List (String × PeriodConfig) :=
  [("morning",   ⟨5, 12, 7/10, 8/10, 12/10⟩),
   ("afternoon", ⟨12, 17, 6/10, 6/10, 1⟩),
   ("evening",   ⟨17, 22, 4/10, 5/10, 11/10⟩),
   ("night",     ⟨22, 5, 3/10, 4/10, 13/10⟩)]

/-- `config.CURATOR_PRERANK_COUNT`. -/
def CURATOR_PRERANK_COUNT : Nat := 30

/-- `config.FINAL_RECOMMENDATION_COUNT`. -/
def FINAL_RECOMMENDATION_COUNT : Nat := 10

/-- `config.FEATURE_WEIGHTS["semantic_similarity"]`. -/
def W_SEMANTIC : ℚ := 4/10

/-- `config.FEATURE_WEIGHTS["audio_features"]`. -/
def W_AUDIO : ℚ := 3/10

/-- `config.FEATURE_WEIGHTS["user_preference"]`. -/
def W_PREFERENCE : ℚ := 2/10

/-- `config.LONG_TERM_MEMORY_UPDATE_THRESHOLD`. -/
def LONG_TERM_MEMORY_UPDATE_THRESHOLD : Int := 5

/-- `config.AUDIO_FEATURES`. -/
def AUDIO_FEATURES : List String :=
  ["danceability", "energy", "valence", "tempo",
   "acousticness", "instrumentalness", "speechiness", "loudness"]

/-! ## src/tools/time_of_day_matcher.py -/

/-- Predicate of the loop body of `TimeOfDayMatcher.get_time_period`: does
`hour` fall in the period's `hour_range`, treating a range whose start exceeds
its end as crossing midnight. -/
def hourInPeriod (hour : Nat) (c : PeriodConfig) : Bool :=
  if c.hourStart > c.hourEnd then
    decide (hour ≥ c.hourStart) || decide (hour < c.hourEnd)
  else
    decide (c.hourStart ≤ hour) && decide (hour < c.hourEnd)

/-- `TimeOfDayMatcher.get_time_period`: first matching period of
`TIME_OF_DAY_FEATURES`, defaulting to `"afternoon"`. -/
def get_time_period (hour : Nat) : String :=
  ((TIME_OF_DAY_FEATURES.find? (fun p => hourInPeriod hour p.2)).map Prod.fst).getD
    "afternoon"

/-- `self.time_config[period]` for the period of `hour`; the `getD` default is
never reached because `get_time_period` only returns keys of the dict. -/
def periodConfigOf (hour : Nat) : PeriodConfig :=
  (TIME_OF_DAY_FEATURES.lookup (get_time_period hour)).getD ⟨12, 17, 6/10, 6/10, 1⟩

/-- `TimeOfDayMatcher.get_time_weight`. -/
def get_time_weight (hour : Nat) : ℚ :=
  (periodConfigOf hour).weight

/-- `TimeOfDayMatcher.calculate_time_match_score`: 1 minus the mean of the
absolute energy and valence differences from the period's ideal features,
clamped to [0,1]; missing features default to 0.5. -/
def calculate_time_match_score (song_features : List (String × ℚ)) (hour : Nat) : ℚ :=
  let ideal := periodConfigOf hour
  let energy_diff := |lookupD song_features "energy" (1/2) - ideal.idealEnergy|
  let valence_diff := |lookupD song_features "valence" (1/2) - ideal.idealValence|
  let avg_diff := (energy_diff + valence_diff) / 2
  max 0 (min 1 (1 - avg_diff))

/-- The combination line of `TimeOfDayMatcher.adjust_score_for_time`:
`adjusted_score = (base_score * (2 - time_weight) + time_match_score * time_weight) / 2`. -/
def weightedTimeCombine (base_score time_match_score time_weight : ℚ) : ℚ :=
  (base_score * (2 - time_weight) + time_match_score * time_weight) / 2

/-- `TimeOfDayMatcher.adjust_score_for_time`. -/
def adjust_score_for_time (base_score : ℚ) (song_features : List (String × ℚ))
    (hour : Nat) : ℚ :=
  weightedTimeCombine base_score (calculate_time_match_score song_features hour)
    (get_time_weight hour)

/-! ## src/memory/long_term.py -/

/-- One row of `db.get_user_interactions(user_id)` as read by
`LongTermMemory.update_from_interactions` and its helpers.  `rating` is
`Option Int` (`None` ↦ `none`); `timestamp_hour` is the hour obtained by
`datetime.fromisoformat(timestamp).hour`, `none` when the timestamp is absent
or unparseable (the code swallows the parse error). -/
structure Interaction where
  song_id : Nat
  action_type : String
  rating : Option Int
  artist : String
  features : List (String × ℚ)
  timestamp_hour : Option Nat
  deriving Repr, DecidableEq

/-- The part of a `db.get_song` row read by `_update_genre_preferences`. -/
structure SongRow where
  genre : Option String
  deriving Repr, DecidableEq

/-- Per-feature statistics stored in `audio_feature_preferences`
(`fmin`/`fmax` stand for the dict keys `min`/`max`). -/
structure FeatureStats where
  mean : ℚ
  std : ℚ
  fmin : ℚ
  fmax : ℚ
  deriving Repr, DecidableEq

/-- One entry of `time_of_day_patterns` (`avg_features` flattened to its three
keys, plus `count`). -/
structure TimePattern where
  avg_energy : ℚ
  avg_valence : ℚ
  avg_danceability : ℚ
  count : Nat
  deriving Repr, DecidableEq

/-- `LongTermMemory.profile`. -/
structure Profile where
  genre_preferences : List (String × ℚ)
  audio_feature_preferences : List (String × FeatureStats)
  liked_artists : List String
  disliked_artists : List String
  time_of_day_patterns : List (String × TimePattern)
  total_interactions : Nat
  last_updated : Option String
  deriving Repr, DecidableEq

/-- The profile `LongTermMemory.__init__` starts from. -/
def initialProfile : Profile :=
  { genre_preferences := [], audio_feature_preferences := [],
    liked_artists := [], disliked_artists := [], time_of_day_patterns := [],
    total_interactions := 0, last_updated := none }

/-- Python truthiness-guarded rating test of the `liked_songs` filter:
`i.get('rating') and i['rating'] >= 4`. -/
def likedByRating (r : Option Int) : Bool :=
  match r with
  | none => false
  | some v => decide (v ≠ 0) && decide (4 ≤ v)

/-- Python truthiness-guarded rating test of the `disliked_songs` filter:
`i.get('rating') and i['rating'] <= 2`. -/
def dislikedByRating (r : Option Int) : Bool :=
  match r with
  | none => false
  | some v => decide (v ≠ 0) && decide (v ≤ 2)

/-- The `liked_songs` predicate of `update_from_interactions`. -/
def isLiked (i : Interaction) : Bool :=
  likedByRating i.rating || decide (i.action_type ∈ ["like", "play", "save"])

/-- The `disliked_songs` predicate of `update_from_interactions`. -/
def isDisliked (i : Interaction) : Bool :=
  dislikedByRating i.rating || decide (i.action_type = "dislike")

/-- Genre of an interaction's song when the song exists and its genre is a
truthy (non-empty) string, as tested by `_update_genre_preferences`. -/
def interactionGenre (getSong : Nat → Option SongRow) (i : Interaction) : Option String :=
  match getSong i.song_id with
  | some row =>
    match row.genre with
    | some g => if g = "" then none else some g
    | none => none
  | none => none

/-- Accumulated `genre_scores[g]` of `_update_genre_preferences`: +1.0 per
liked song of genre `g`, −0.5 per disliked song of genre `g`. -/
def genreScoreOf (getSong : Nat → Option SongRow) (liked disliked : List Interaction)
    (g : String) : ℚ :=
  ((liked.filterMap (interactionGenre getSong)).count g : ℚ) * 1 -
  ((disliked.filterMap (interactionGenre getSong)).count g : ℚ) * (1/2)

/-- Key set of the `genre_scores` defaultdict, in insertion order (liked songs
first, then disliked). -/
def genreKeys (getSong : Nat → Option SongRow) (liked disliked : List Interaction) :
    List String :=
  ((liked ++ disliked).filterMap (interactionGenre getSong)).dedup

/-- `LongTermMemory._update_genre_preferences`: normalises the clamped genre
scores when their total is positive, otherwise leaves the stored mapping
untouched. -/
def update_genre_preferences (getSong : Nat → Option SongRow)
    (liked disliked : List Interaction) (old : List (String × ℚ)) :
    List (String × ℚ) :=
  let keys := genreKeys getSong liked disliked
  if keys.isEmpty then old
  else
    let total := (keys.map (fun g => max 0 (genreScoreOf getSong liked disliked g))).sum
    if 0 < total then
      keys.map (fun g => (g, max 0 (genreScoreOf getSong liked disliked g) / total))
    else old

/-- `feature_values[name]` of `_update_audio_feature_preferences`. -/
def featureValues (liked : List Interaction) (name : String) : List ℚ :=
  liked.filterMap (fun i => i.features.lookup name)

/-- Keys of the `feature_values` defaultdict in insertion order: per liked
song, the audio features it carries, in `AUDIO_FEATURES` order. -/
def audioKeys (liked : List Interaction) : List String :=
  ((liked.map (fun i =>
    AUDIO_FEATURES.filter (fun n => (i.features.lookup n).isSome))).flatten).dedup

/-- `np.min` on a nonempty list (callers guard nonemptiness). -/
def listMin : List ℚ → ℚ
  | [] => 0
  | x :: xs => xs.foldl min x

/-- `np.max` on a nonempty list (callers guard nonemptiness). -/
def listMax : List ℚ → ℚ
  | [] => 0
  | x :: xs => xs.foldl max x

/-- `LongTermMemory._update_audio_feature_preferences`.  `npStd` models
`np.std` as an arbitrary fixed function of the value list (its numeric value
is opaque to every claim; only that it is a function of the values matters). -/
def update_audio_feature_preferences (npStd : List ℚ → ℚ)
    (liked : List Interaction) (old : List (String × FeatureStats)) :
    List (String × FeatureStats) :=
  if liked.isEmpty then old
  else
    (audioKeys liked).map (fun n =>
      let vs := featureValues liked n
      (n, { mean := listMean vs, std := npStd vs,
            fmin := listMin vs, fmax := listMax vs }))

/-- `collections.Counter` over the artists of a song list: distinct artists in
first-occurrence order with their multiplicities. -/
def artistCounts (songs : List Interaction) : List (String × Nat) :=
  ((songs.map (fun i => i.artist)).dedup).map
    (fun a => (a, (songs.map (fun i => i.artist)).count a))

/-- `Counter.most_common(n)`: stable sort by count descending, first `n`. -/
def most_common (counts : List (String × Nat)) (n : Nat) : List (String × Nat) :=
  (counts.mergeSort (fun x y => decide (y.2 ≤ x.2))).take n

/-- The `liked_artists` assignment of `_update_artist_preferences`: top 50 by
count, kept when the count is at least 2. -/
def liked_artists_update (liked : List Interaction) : List String :=
  ((most_common (artistCounts liked) 50).filter (fun p => decide (2 ≤ p.2))).map Prod.fst

/-- The `disliked_artists` assignment of `_update_artist_preferences`: top 20
by count, kept when the count is at least 2. -/
def disliked_artists_update (disliked : List Interaction) : List String :=
  ((most_common (artistCounts disliked) 20).filter (fun p => decide (2 ≤ p.2))).map Prod.fst

/-- The `(period, features)` pairs collected by `_update_time_patterns`: liked
songs with a parseable timestamp and a truthy feature dict. -/
def timeEntries (liked : List Interaction) : List (String × List (String × ℚ)) :=
  liked.filterMap (fun i =>
    match i.timestamp_hour with
    | some h => if i.features.isEmpty then none else some (get_time_period h, i.features)
    | none => none)

/-- `LongTermMemory._update_time_patterns`: average energy/valence/danceability
(missing values default to 0.5) and count, per period seen. -/
def update_time_patterns (liked : List Interaction) : List (String × TimePattern) :=
  let entries := timeEntries liked
  ((entries.map Prod.fst).dedup).map (fun period =>
    let fls := (entries.filter (fun e => decide (e.1 = period))).map Prod.snd
    (period,
      { avg_energy := listMean (fls.map (fun f => lookupD f "energy" (1/2))),
        avg_valence := listMean (fls.map (fun f => lookupD f "valence" (1/2))),
        avg_danceability := listMean (fls.map (fun f => lookupD f "danceability" (1/2))),
        count := fls.length }))

/-- `LongTermMemory.update_from_interactions` followed by the
`save_to_database` it performs (which stamps `last_updated` with the current
time `now`).  `getSong` models `db.get_song`; `history` is
`db.get_user_interactions(user_id)`. -/
def update_from_interactions (getSong : Nat → Option SongRow) (npStd : List ℚ → ℚ)
    (now : String) (history : List Interaction) (force : Bool) (p : Profile) : Profile :=
  if history.isEmpty then p
  else if ¬force ∧ 0 < p.total_interactions ∧
      (history.length : Int) - (p.total_interactions : Int) <
        LONG_TERM_MEMORY_UPDATE_THRESHOLD then p
  else
    let liked := history.filter isLiked
    let disliked := history.filter isDisliked
    { genre_preferences :=
        update_genre_preferences getSong liked disliked p.genre_preferences,
      audio_feature_preferences :=
        update_audio_feature_preferences npStd liked p.audio_feature_preferences,
      liked_artists := liked_artists_update liked,
      disliked_artists := disliked_artists_update disliked,
      time_of_day_patterns := update_time_patterns liked,
      total_interactions := history.length,
      last_updated := some now }

/-- `LongTermMemory.get_genre_preference`: stored weight, defaulting to 0.5. -/
def get_genre_preference (p : Profile) (genre : String) : ℚ :=
  (p.genre_preferences.lookup genre).getD (1/2)

/-- Per-feature score of the audio-feature block of
`calculate_song_match_score`. -/
def featureScore (stats : FeatureStats) (value : ℚ) : ℚ :=
  if 0 < stats.std then max 0 (1 - |value - stats.mean| / (2 * stats.std))
  else if value = stats.mean then 1 else 1/2

/-- The `feature_scores` list of `calculate_song_match_score`: one score per
song feature that also appears in the stored audio preferences. -/
def matchFeatureScores (p : Profile) (song_features : List (String × ℚ)) : List ℚ :=
  song_features.filterMap (fun nv =>
    (p.audio_feature_preferences.lookup nv.1).map (fun stats => featureScore stats nv.2))

/-- The `scores` list of `calculate_song_match_score`: genre contribution,
then mean feature contribution, then artist contribution, each only when
computable (guards follow Python truthiness). -/
def matchContributions (p : Profile) (song_features : List (String × ℚ))
    (song_genre song_artist : Option String) : List ℚ :=
  let genreScores : List ℚ :=
    match song_genre with
    | some g =>
      if g ≠ "" ∧ ¬p.genre_preferences.isEmpty then [get_genre_preference p g] else []
    | none => []
  let featScores : List ℚ :=
    if ¬p.audio_feature_preferences.isEmpty then
      let fs := matchFeatureScores p song_features
      if fs.isEmpty then [] else [listMean fs]
    else []
  let artistScores : List ℚ :=
    match song_artist with
    | some a =>
      if a ≠ "" then
        if a ∈ p.liked_artists then [1]
        else if a ∈ p.disliked_artists then [0]
        else []
      else []
    | none => []
  genreScores ++ featScores ++ artistScores

/-- `LongTermMemory.calculate_song_match_score`: unweighted mean of the
computable contributions, 0.5 when none is computable. -/
def calculate_song_match_score (p : Profile) (song_features : List (String × ℚ))
    (song_genre song_artist : Option String) : ℚ :=
  let scores := matchContributions p song_features song_genre song_artist
  if scores.isEmpty then 1/2 else listMean scores

/-- The invariant claimed of `genre_preferences`: empty, or non-negative
weights summing to 1 within 1e-6. -/
def GenrePrefInvariant (m : List (String × ℚ)) : Prop :=
  m = [] ∨ ((∀ x ∈ m, 0 ≤ x.2) ∧ |(m.map Prod.snd).sum - 1| ≤ 1/1000000)

/-! ## src/agents/curator.py, src/reranker/cohere_reranker.py,
src/recommendation_system.py -/

/-- A candidate song dict as it flows through the curation pipeline.  The
retriever provides `id`/`name`/`artist`/`genre`/`features`/`score`; the later
stages add the remaining keys, absent (`none`) until set. -/
structure Song where
  id : Nat
  name : String
  artist : String
  genre : Option String
  features : List (String × ℚ)
  score : Option ℚ
  semantic_score : Option ℚ
  profile_score : Option ℚ
  genre_score : Option ℚ
  original_score : Option ℚ
  time_adjusted_score : Option ℚ
  time_period : Option String
  rerank_score : Option ℚ
  rerank_position : Option Nat
  deriving Repr, DecidableEq

/-- Loop body of `CuratorAgent._apply_collaborative_filtering`: semantic score
(`song.get('score', 0.5)`), profile match, genre preference
(`song.get('genre', '')`), combined with the configured weights. -/
def scoreCandidate (p : Profile) (song : Song) : Song :=
  let semantic_score := song.score.getD (1/2)
  let profile_score :=
    calculate_song_match_score p song.features song.genre (some song.artist)
  let genre_score := get_genre_preference p (song.genre.getD "")
  let combined_score :=
    semantic_score * W_SEMANTIC + profile_score * W_PREFERENCE + genre_score * W_AUDIO
  { song with semantic_score := some semantic_score,
              profile_score := some profile_score,
              genre_score := some genre_score,
              score := some combined_score }

/-- `CuratorAgent._apply_collaborative_filtering` (the stored long-term
profile is the `p` argument; `auto_update=False` so it is read as-is). -/
def apply_collaborative_filtering (p : Profile) (candidates : List Song) : List Song :=
  candidates.map (scoreCandidate p)

/-- `sorted(..., key=lambda x: x['score'], reverse=True)` comparator: a stable
descending sort by score (all scores are set at sorting time; `getD 0`
totalises the projection). -/
def byScoreDesc (a b : Song) : Bool :=
  decide (b.score.getD 0 ≤ a.score.getD 0)

/-- Loop body of `TimeOfDayMatcher.boost_songs_by_time`. -/
def boostSong (hour : Nat) (song : Song) : Song :=
  let base_score := song.score.getD (1/2)
  let new_score := adjust_score_for_time base_score song.features hour
  { song with original_score := some base_score,
              time_adjusted_score := some new_score,
              score := some new_score,
              time_period := some (get_time_period hour) }

/-- `TimeOfDayMatcher.boost_songs_by_time`: adjust every score, then sort by
the adjusted score, descending. -/
def boost_songs_by_time (songs : List Song) (hour : Nat) : List Song :=
  (songs.map (boostSong hour)).mergeSort byScoreDesc

/-- Steps 1–3 of `CuratorAgent.curate_recommendations`: collaborative
scoring, optional time matching, then the top `CURATOR_PRERANK_COUNT` by
score. -/
def prerank_list (p : Profile) (hour : Nat) (candidates : List Song)
    (enable_time_matching : Bool) : List Song :=
  let scored := apply_collaborative_filtering p candidates
  let scored2 := if enable_time_matching then boost_songs_by_time scored hour else scored
  (scored2.mergeSort byScoreDesc).take CURATOR_PRERANK_COUNT

/-- The `try` body of `CohereReranker.rerank` after the API call: map each
API result `(index, relevance_score)` back to a song, recording score and
1-based position; `none` when an index is out of range (an `IndexError`,
which the surrounding `except` also catches). -/
def buildReranked (songs : List Song) : List (Nat × ℚ) → Nat → Option (List Song)
  | [], _ => some []
  | (i, sc) :: rest, pos =>
    match songs[i]? with
    | none => none
    | some s =>
      (buildReranked songs rest (pos + 1)).map
        (fun tl =>
          ({ s with rerank_score := some sc, rerank_position := some (pos + 1) }) :: tl)

/-- `CohereReranker.rerank`.  The external Cohere call is modelled by
`api : Option (List (Nat × ℚ))`: `none` means the call (or anything in the
`try` block) raised, `some results` the returned `(index, relevance_score)`
list.  On an exception the code falls back to the first
`min top_n (len songs)` songs in their existing order. -/
def rerank (songs : List Song) (top_n : Nat) (api : Option (List (Nat × ℚ))) :
    List Song :=
  if songs.isEmpty then []
  else
    let n := min top_n songs.length
    match api with
    | none => songs.take n
    | some results =>
      match buildReranked songs results 0 with
      | some out => out
      | none => songs.take n

/-- The `metadata` dict returned by `CuratorAgent.curate_recommendations`. -/
structure CurationMetadata where
  total_candidates : Nat
  prerank_count : Nat
  final_count : Nat
  time_matching_enabled : Bool
  reranking_enabled : Bool
  time_period : Option String
  deriving Repr, DecidableEq

/-- The dict returned by `CuratorAgent.curate_recommendations` (the
`reasoning` entry, pure presentation, is omitted). -/
structure CurationResult where
  recommendations : List Song
  metadata : CurationMetadata
  deriving Repr, DecidableEq

/-- `CuratorAgent.curate_recommendations`. -/
def curate_recommendations (p : Profile) (hour : Nat)
    (api : Option (List (Nat × ℚ))) (candidates : List Song)
    (enable_time_matching enable_reranking : Bool) : CurationResult :=
  let top_candidates := prerank_list p hour candidates enable_time_matching
  let final_recommendations :=
    if enable_reranking ∧ 0 < top_candidates.length then
      rerank top_candidates FINAL_RECOMMENDATION_COUNT api
    else top_candidates.take FINAL_RECOMMENDATION_COUNT
  { recommendations := final_recommendations,
    metadata :=
      { total_candidates := candidates.length,
        prerank_count := top_candidates.length,
        final_count := final_recommendations.length,
        time_matching_enabled := enable_time_matching,
        reranking_enabled := enable_reranking,
        time_period :=
          if enable_time_matching then some (get_time_period hour) else none } }

/-- The dict returned by `MusicRecommendationSystem.get_recommendations`,
restricted to the keys the claims inspect.  `success : Option Bool` models
the presence/value of the `'success'` key (the zero-candidate return dict
carries no such key); `stages` is the key list of
`pipeline_trace['stages']`, recording which pipeline stages ran. -/
structure RecResult where
  success : Option Bool
  recommendations : List Song
  message : Option String
  stages : List String
  deriving Repr, DecidableEq

/-- `MusicRecommendationSystem.get_recommendations`.  The retrieval stage is
modelled by its output `candidates`; the analyzer's output (natural-language
summaries) only feeds the rerank query, which the `api` oracle already
abstracts; the critic computes evaluation scores that do not affect the
fields modelled here. -/
def get_recommendations (p : Profile) (hour : Nat)
    (api : Option (List (Nat × ℚ))) (candidates : List Song)
    (enable_time_matching enable_reranking : Bool) : RecResult :=
  if candidates.isEmpty then
    { success := none, recommendations := [],
      message := some "No songs found matching your query",
      stages := ["retrieval"] }
  else
    let curation :=
      curate_recommendations p hour api candidates enable_time_matching enable_reranking
    { success := some true,
      recommendations := curation.recommendations,
      message := none,
      stages := ["retrieval", "analysis", "curation", "critique"] }

/-- The profile of C7's example scenario: genre preferences pop 0.8, rock
0.2, nothing else. -/
def scenarioProfile : Profile :=
  { initialProfile with genre_preferences := [("pop", 8/10), ("rock", 2/10)] }

/-- C7's pop candidate, with symbolic semantic score `s`. -/
def popSong (s : ℚ) : Song :=
  { id := 1, name := "P", artist := "A", genre := some "pop",
    features := [("energy", 9/10), ("valence", 8/10)], score := some s,
    semantic_score := none, profile_score := none, genre_score := none,
    original_score := none, time_adjusted_score := none, time_period := none,
    rerank_score := none, rerank_position := none }

/-- C7's rock candidate, with symbolic semantic score `s`. -/
def rockSong (s : ℚ) : Song :=
  { id := 2, name := "R", artist := "B", genre := some "rock",
    features := [("energy", 2/10), ("valence", 3/10)], score := some s,
    semantic_score := none, profile_score := none, genre_score := none,
    original_score := none, time_adjusted_score := none, time_period := none,
    rerank_score := none, rerank_position := none }

/-- A retrieval-shaped sample candidate used by concrete instantiations. -/
def sampleSong : Song :=
  { id := 3, name := "S", artist := "C", genre := some "pop",
    features := [("energy", 5/10), ("valence", 5/10)], score := some (8/10),
    semantic_score := none, profile_score := none, genre_score := none,
    original_score := none, time_adjusted_score := none, time_period := none,
    rerank_score := none, rerank_position := none }

/-! ### Characterisation of the period table -/

/-- Case analysis of `get_time_period` over the literal config table. -/
theorem get_time_period_eq (hour : Nat) :
    get_time_period hour =
      if 5 ≤ hour ∧ hour < 12 then "morning"
      else if 12 ≤ hour ∧ hour < 17 then "afternoon"
      else if 17 ≤ hour ∧ hour < 22 then "evening"
      else "night" := by
  have h5 : hour < 5 ∨ (5 ≤ hour ∧ hour < 12) ∨ (12 ≤ hour ∧ hour < 17)
      ∨ (17 ≤ hour ∧ hour < 22) ∨ 22 ≤ hour := by omega
  rcases h5 with h | h | h | h | h
  · simp [get_time_period, TIME_OF_DAY_FEATURES, List.find?_cons, hourInPeriod,
      show hour < 5 from h, show ¬ 5 ≤ hour by omega, show ¬ 12 ≤ hour by omega,
      show ¬ 17 ≤ hour by omega, show ¬ hour ≥ 22 by omega]
  · simp [get_time_period, TIME_OF_DAY_FEATURES, List.find?_cons, hourInPeriod,
      show 5 ≤ hour from h.1, show hour < 12 from h.2, h]
  · simp [get_time_period, TIME_OF_DAY_FEATURES, List.find?_cons, hourInPeriod,
      show ¬ hour < 12 by omega, show 12 ≤ hour from h.1, show hour < 17 from h.2]
  · simp [get_time_period, TIME_OF_DAY_FEATURES, List.find?_cons, hourInPeriod,
      show ¬ hour < 12 by omega, show ¬ hour < 17 by omega,
      show 17 ≤ hour from h.1, show hour < 22 from h.2]
  · simp [get_time_period, TIME_OF_DAY_FEATURES, List.find?_cons, hourInPeriod,
      show ¬ hour < 12 by omega, show ¬ hour < 17 by omega, show ¬ hour < 22 by omega,
      show hour ≥ 22 from h]

/-- The period weight is one of the four configured values. -/
theorem get_time_weight_cases (hour : Nat) :
    get_time_weight hour = 12/10 ∨ get_time_weight hour = 1 ∨
    get_time_weight hour = 11/10 ∨ get_time_weight hour = 13/10 := by
  unfold get_time_weight periodConfigOf
  rw [get_time_period_eq]
  split_ifs <;> simp [TIME_OF_DAY_FEATURES, List.lookup]

/-- Every configured period weight lies in [1, 13/10]. -/
theorem get_time_weight_bounds (hour : Nat) :
    1 ≤ get_time_weight hour ∧ get_time_weight hour ≤ 13/10 := by
  rcases get_time_weight_cases hour with h | h | h | h <;> rw [h] <;> norm_num

/-- The time-match score is clamped to [0, 1]. -/
theorem calculate_time_match_score_bounds (song_features : List (String × ℚ)) (hour : Nat) :
    0 ≤ calculate_time_match_score song_features hour ∧
    calculate_time_match_score song_features hour ≤ 1 := by
  unfold calculate_time_match_score
  constructor
  · exact le_max_left 0 _
  · exact max_le (by norm_num) (min_le_left 1 _)

/-! ### Claims C1 and C10: the time-of-day adjustment -/

/-- C1 (counterexample): the claim asserts that at `weight = 0` the adjusted
score equals `base/2`.  On the code's combination formula
`(base*(2-weight) + time_match*weight)/2`, taking `base = 1`, `time_match = 0`
and `weight = 0` yields `1`, not `1/2`. -/
theorem C1_weight_zero_counterexample :
    weightedTimeCombine 1 0 0 = 1 ∧ weightedTimeCombine 1 0 0 ≠ 1/2 := by
  constructor <;> norm_num [weightedTimeCombine]

/-- C1 (amended): `adjust_score_for_time` computes
`(base*(2-weight) + time_match*weight)/2` where `time_match` is 1 minus the
average of the absolute energy and valence differences from the period's ideal
features, clamped to [0,1]; consequently at `weight = 1` base and time-match
are weighted equally, and at `weight = 0` the output equals `base` (not
`base/2`). -/
theorem C1_time_adjustment_formula (base tm : ℚ) (song_features : List (String × ℚ))
    (hour : Nat) :
    adjust_score_for_time base song_features hour =
      (base * (2 - get_time_weight hour) +
        calculate_time_match_score song_features hour * get_time_weight hour) / 2 ∧
    calculate_time_match_score song_features hour =
      max 0 (min 1 (1 -
        (|lookupD song_features "energy" (1/2) - (periodConfigOf hour).idealEnergy| +
         |lookupD song_features "valence" (1/2) - (periodConfigOf hour).idealValence|) / 2)) ∧
    weightedTimeCombine base tm 1 = (base + tm) / 2 ∧
    weightedTimeCombine base tm 0 = base := by
  refine ⟨rfl, rfl, ?_, ?_⟩ <;> unfold weightedTimeCombine <;> ring

/-- C10: for every base score in [0,1], every feature mapping and every hour,
the time-adjusted score stays in [0,1] (the period weight always lies in
[1, 13/10] ⊆ [0,2]). -/
theorem C10_adjusted_score_in_unit_interval (base : ℚ)
    (song_features : List (String × ℚ)) (hour : Nat)
    (hb0 : 0 ≤ base) (hb1 : base ≤ 1) :
    0 ≤ adjust_score_for_time base song_features hour ∧
    adjust_score_for_time base song_features hour ≤ 1 := by
  obtain ⟨htm0, htm1⟩ := calculate_time_match_score_bounds song_features hour
  obtain ⟨hw0, hw1⟩ := get_time_weight_bounds hour
  unfold adjust_score_for_time weightedTimeCombine
  set tm := calculate_time_match_score song_features hour
  set w := get_time_weight hour
  constructor
  · nlinarith
  · nlinarith

/-- C10 (witness): the bound instantiated at a concrete score, feature map and
hour. -/
theorem C10_witness :
    0 ≤ adjust_score_for_time (1/2) [("energy", 9/10)] 8 ∧
    adjust_score_for_time (1/2) [("energy", 9/10)] 8 ≤ 1 :=
  C10_adjusted_score_in_unit_interval (1/2) [("energy", 9/10)] 8
    (by norm_num) (by norm_num)

/-! ### List helper lemmas -/

/-- Dividing each mapped value distributes over the sum. -/
theorem sum_map_div {α : Type} (l : List α) (f : α → ℚ) (c : ℚ) :
    (l.map (fun a => f a / c)).sum = (l.map f).sum / c := by
  induction l with
  | nil => simp
  | cons x xs ih => simp [ih, add_div]

/-- A successful association-list lookup produces a member pair. -/
theorem mem_of_lookup_eq_some {β : Type} {l : List (String × β)} {k : String} {v : β}
    (h : l.lookup k = some v) : (k, v) ∈ l := by
  induction l with
  | nil => simp [List.lookup] at h
  | cons a tl ih =>
    obtain ⟨ka, va⟩ := a
    by_cases hk : k = ka
    · subst hk
      simp [List.lookup] at h
      simp [h]
    · have hb : (k == ka) = false := beq_false_of_ne hk
      simp [List.lookup, hb] at h
      exact List.mem_cons_of_mem _ (ih h)

/-- The mean of a nonempty list of values in [0,1] lies in [0,1]. -/
theorem listMean_bounds (l : List ℚ) (hne : l ≠ [])
    (h : ∀ x ∈ l, 0 ≤ x ∧ x ≤ 1) : 0 ≤ listMean l ∧ listMean l ≤ 1 := by
  have hlen : 0 < (l.length : ℚ) := by exact_mod_cast List.length_pos.mpr hne
  constructor
  · exact div_nonneg (List.sum_nonneg fun x hx => (h x hx).1) (le_of_lt hlen)
  · rw [listMean, div_le_one hlen]
    have hb := List.sum_le_card_nsmul l 1 (fun x hx => (h x hx).2)
    simpa using hb

/-! ### Claim C5: liked/disliked classification -/

/-- C5: on the rating domain actually produced by the system (1–5, or absent),
an interaction is liked iff its rating is ≥ 4 or its kind is like/play/save,
and disliked iff its rating is ≤ 2 or its kind is dislike; a `skip` with no
rating is neither. -/
theorem C5_liked_disliked_classification (i : Interaction)
    (hdom : ∀ r, i.rating = some r → 1 ≤ r) :
    (isLiked i = true ↔
      (∃ r, i.rating = some r ∧ 4 ≤ r) ∨
        i.action_type ∈ (["like", "play", "save"] : List String)) ∧
    (isDisliked i = true ↔
      (∃ r, i.rating = some r ∧ r ≤ 2) ∨ i.action_type = "dislike") ∧
    (i.action_type = "skip" → i.rating = none →
      isLiked i = false ∧ isDisliked i = false) := by
  refine ⟨?_, ?_, ?_⟩
  · cases hr : i.rating with
    | none => simp [isLiked, likedByRating, hr]
    | some v =>
      have h1 : 1 ≤ v := hdom v hr
      have h0 : v ≠ 0 := by omega
      simp [isLiked, likedByRating, hr, h0]
  · cases hr : i.rating with
    | none => simp [isDisliked, dislikedByRating, hr]
    | some v =>
      have h1 : 1 ≤ v := hdom v hr
      have h0 : v ≠ 0 := by omega
      simp [isDisliked, dislikedByRating, hr, h0]
  · intro hskip hnone
    simp [isLiked, isDisliked, likedByRating, dislikedByRating, hskip, hnone]

/-- C5 (witness): a concrete `skip` interaction with no rating is classified
as neither liked nor disliked. -/
theorem C5_witness :
    isLiked ⟨1, "skip", none, "A", [], none⟩ = false ∧
    isDisliked ⟨1, "skip", none, "A", [], none⟩ = false :=
  (C5_liked_disliked_classification ⟨1, "skip", none, "A", [], none⟩
    (by intro r hr; simp at hr)).2.2 rfl rfl

/-! ### Claim C4: the genre-weight invariant -/

/-- `_update_genre_preferences` preserves the genre-weight invariant: it
either leaves the stored mapping untouched or replaces it with clamped scores
normalised to sum exactly 1. -/
theorem update_genre_preferences_invariant (getSong : Nat → Option SongRow)
    (liked disliked : List Interaction) (old : List (String × ℚ))
    (hold : GenrePrefInvariant old) :
    GenrePrefInvariant (update_genre_preferences getSong liked disliked old) := by
  unfold update_genre_preferences
  set keys := genreKeys getSong liked disliked with hkeys
  by_cases hk : keys.isEmpty
  · simpa [hk]
  · simp only [hk, Bool.false_eq_true, if_false]
    set total := (keys.map (fun g => max 0 (genreScoreOf getSong liked disliked g))).sum
      with htotal
    by_cases ht : 0 < total
    · simp only [ht, if_true]
      right
      constructor
      · intro x hx
        obtain ⟨g, hg, rfl⟩ := List.mem_map.mp hx
        exact div_nonneg (le_max_left 0 _) (le_of_lt ht)
      · rw [List.map_map]
        have hcomp :
            (Prod.snd ∘ fun g => (g, max 0 (genreScoreOf getSong liked disliked g) / total)) =
            fun g => max 0 (genreScoreOf getSong liked disliked g) / total := rfl
        rw [hcomp, sum_map_div, ← htotal, div_self (ne_of_gt ht)]
        norm_num
    · simpa [ht]

/-- C4: the initial profile satisfies the genre-weight invariant, and full
profile recomputation preserves it: afterwards the mapping is empty (zero
positive signal, or untouched) or consists of non-negative weights summing to
1 within 1e-6. -/
theorem C4_genre_weight_invariant (getSong : Nat → Option SongRow)
    (npStd : List ℚ → ℚ) (now : String) (history : List Interaction)
    (force : Bool) (p : Profile)
    (hp : GenrePrefInvariant p.genre_preferences) :
    GenrePrefInvariant initialProfile.genre_preferences ∧
    GenrePrefInvariant
      (update_from_interactions getSong npStd now history force p).genre_preferences := by
  refine ⟨Or.inl rfl, ?_⟩
  unfold update_from_interactions
  split_ifs with h1 h2
  · exact hp
  · exact hp
  · exact update_genre_preferences_invariant getSong _ _ _ hp

/-- C4 (witness): the invariant instantiated on a one-like history whose song
has genre `"pop"` (recomputed mapping `[("pop", 1)]`). -/
theorem C4_witness :
    GenrePrefInvariant initialProfile.genre_preferences ∧
    GenrePrefInvariant
      (update_from_interactions (fun _ => some ⟨some "pop"⟩) (fun _ => 0) "t"
        [⟨1, "like", none, "A", [], none⟩] false initialProfile).genre_preferences :=
  C4_genre_weight_invariant (fun _ => some ⟨some "pop"⟩) (fun _ => 0) "t"
    [⟨1, "like", none, "A", [], none⟩] false initialProfile (Or.inl rfl)

/-! ### Claim C6: the profile match score -/

/-- Each per-feature score lies in [0,1]. -/
theorem featureScore_bounds (stats : FeatureStats) (v : ℚ) :
    0 ≤ featureScore stats v ∧ featureScore stats v ≤ 1 := by
  unfold featureScore
  split_ifs with h1 h2
  · refine ⟨le_max_left 0 _, max_le (by norm_num) ?_⟩
    have hd : 0 ≤ |v - stats.mean| / (2 * stats.std) :=
      div_nonneg (abs_nonneg _) (by linarith)
    linarith
  · norm_num
  · norm_num

/-- Stored genre weights in [0,1] keep `get_genre_preference` in [0,1]
(the 0.5 default included). -/
theorem get_genre_preference_unit (p : Profile)
    (hg : ∀ x ∈ p.genre_preferences, 0 ≤ x.2 ∧ x.2 ≤ 1) (g : String) :
    0 ≤ get_genre_preference p g ∧ get_genre_preference p g ≤ 1 := by
  unfold get_genre_preference
  cases hl : p.genre_preferences.lookup g with
  | none => norm_num
  | some v => simpa using hg (g, v) (mem_of_lookup_eq_some hl)

/-- Every computable contribution to the match score lies in [0,1]. -/
theorem matchContributions_mem_unit (p : Profile) (song_features : List (String × ℚ))
    (song_genre song_artist : Option String)
    (hg : ∀ x ∈ p.genre_preferences, 0 ≤ x.2 ∧ x.2 ≤ 1) :
    ∀ x ∈ matchContributions p song_features song_genre song_artist,
      0 ≤ x ∧ x ≤ 1 := by
  intro x hx
  unfold matchContributions at hx
  simp only [List.mem_append] at hx
  rcases hx with (hx | hx) | hx
  · cases song_genre with
    | none => simp at hx
    | some g =>
      dsimp only at hx
      by_cases hc : g ≠ "" ∧ ¬p.genre_preferences.isEmpty = true
      · rw [if_pos hc, List.mem_singleton] at hx
        subst hx
        exact get_genre_preference_unit p hg g
      · rw [if_neg hc] at hx
        simp at hx
  · by_cases ha : ¬p.audio_feature_preferences.isEmpty = true
    · rw [if_pos ha] at hx
      by_cases hfs : (matchFeatureScores p song_features).isEmpty = true
      · rw [if_pos hfs] at hx
        simp at hx
      · rw [if_neg hfs, List.mem_singleton] at hx
        subst hx
        apply listMean_bounds
        · intro hnil
          rw [hnil] at hfs
          exact hfs rfl
        · intro y hy
          obtain ⟨nv, _, hmap⟩ := List.mem_filterMap.mp hy
          obtain ⟨stats, _, rfl⟩ := Option.map_eq_some'.mp hmap
          exact featureScore_bounds stats nv.2
    · rw [if_neg ha] at hx
      simp at hx
  · cases song_artist with
    | none => simp at hx
    | some a =>
      dsimp only at hx
      by_cases hae : a ≠ ""
      · rw [if_pos hae] at hx
        by_cases hl : a ∈ p.liked_artists
        · rw [if_pos hl, List.mem_singleton] at hx
          subst hx
          norm_num
        · rw [if_neg hl] at hx
          by_cases hd : a ∈ p.disliked_artists
          · rw [if_pos hd, List.mem_singleton] at hx
            subst hx
            norm_num
          · rw [if_neg hd] at hx
            simp at hx
      · rw [if_neg hae] at hx
        simp at hx

/-- C6: given stored genre weights in [0,1] (the recomputation invariant), the
profile match score lies in [0,1], equals the unweighted mean of the
computable contributions when at least one exists, and returns the neutral
default 0.5 when none does — in particular on the brand-new (initial)
profile. -/
theorem C6_profile_match_score (p : Profile) (song_features : List (String × ℚ))
    (song_genre song_artist : Option String)
    (hg : ∀ x ∈ p.genre_preferences, 0 ≤ x.2 ∧ x.2 ≤ 1) :
    (0 ≤ calculate_song_match_score p song_features song_genre song_artist ∧
      calculate_song_match_score p song_features song_genre song_artist ≤ 1) ∧
    (matchContributions p song_features song_genre song_artist ≠ [] →
      calculate_song_match_score p song_features song_genre song_artist =
        listMean (matchContributions p song_features song_genre song_artist)) ∧
    (matchContributions p song_features song_genre song_artist = [] →
      calculate_song_match_score p song_features song_genre song_artist = 1/2) ∧
    calculate_song_match_score initialProfile song_features song_genre song_artist
      = 1/2 := by
  refine ⟨?_, ?_, ?_, ?_⟩
  · unfold calculate_song_match_score
    by_cases hc : (matchContributions p song_features song_genre song_artist).isEmpty
    · simp only [hc, if_true]
      norm_num
    · simp only [hc, Bool.false_eq_true, if_false]
      apply listMean_bounds
      · intro hnil
        rw [hnil] at hc
        exact hc rfl
      · exact matchContributions_mem_unit p song_features song_genre song_artist hg
  · intro h
    unfold calculate_song_match_score
    rw [if_neg (by simpa [List.isEmpty_iff] using h)]
  · intro h
    unfold calculate_song_match_score
    rw [if_pos (by simpa [List.isEmpty_iff] using h)]
  · cases song_genre <;> cases song_artist <;>
      simp [calculate_song_match_score, matchContributions, initialProfile]

/-- C6 (witness): the brand-new profile yields the neutral 0.5 on a concrete
candidate. -/
theorem C6_witness :
    calculate_song_match_score initialProfile [("energy", 9/10)]
      (some "pop") (some "A") = 1/2 :=
  (C6_profile_match_score initialProfile [("energy", 9/10)] (some "pop") (some "A")
    (by intro x hx; simp [initialProfile] at hx)).2.2.2

/-! ### Claim C9: idempotent profile recomputation -/

/-- A non-forced update on a nonempty history either short-circuits on the
threshold check (and that check's condition held) or performs the wholesale
recomputation, setting `total_interactions` to the history length. -/
theorem update_from_interactions_cases (getSong : Nat → Option SongRow)
    (npStd : List ℚ → ℚ) (t : String) (history : List Interaction) (p : Profile)
    (he : ¬history.isEmpty = true) :
    (update_from_interactions getSong npStd t history false p = p ∧
      0 < p.total_interactions ∧
      (history.length : Int) - (p.total_interactions : Int) <
        LONG_TERM_MEMORY_UPDATE_THRESHOLD) ∨
    (update_from_interactions getSong npStd t history false p).total_interactions =
      history.length := by
  by_cases hC : ¬(false = true) ∧ 0 < p.total_interactions ∧
      (history.length : Int) - (p.total_interactions : Int) <
        LONG_TERM_MEMORY_UPDATE_THRESHOLD
  · left
    unfold update_from_interactions
    rw [if_neg he, if_pos hC]
    exact ⟨rfl, hC.2.1, hC.2.2⟩
  · right
    unfold update_from_interactions
    rw [if_neg he, if_neg hC]

/-- C9: recomputing the long-term profile twice in a row over an unchanged
interaction history (and unchanged song database) returns the identical
profile record, timestamp included: the second, non-forced run short-circuits
on the threshold check, so the stored profile is a deterministic function of
the complete history. -/
theorem C9_profile_recompute_idempotent (getSong : Nat → Option SongRow)
    (npStd : List ℚ → ℚ) (t1 t2 : String) (history : List Interaction)
    (p : Profile) :
    update_from_interactions getSong npStd t2 history false
      (update_from_interactions getSong npStd t1 history false p) =
    update_from_interactions getSong npStd t1 history false p := by
  by_cases he : history.isEmpty = true
  · simp [update_from_interactions, he]
  · have hlen : 0 < history.length := by
      cases history with
      | nil => simp at he
      | cons a tl => simp
    have hcond : 0 < (update_from_interactions getSong npStd t1 history false p).total_interactions ∧
        (history.length : Int) -
          ((update_from_interactions getSong npStd t1 history false p).total_interactions : Int) <
          LONG_TERM_MEMORY_UPDATE_THRESHOLD := by
      rcases update_from_interactions_cases getSong npStd t1 history p he with
        ⟨hqp, h1, h2⟩ | htot
      · rw [hqp]
        exact ⟨h1, h2⟩
      · rw [htot]
        refine ⟨hlen, ?_⟩
        simp [LONG_TERM_MEMORY_UPDATE_THRESHOLD]
    conv_lhs => unfold update_from_interactions
    rw [if_neg he, if_pos ⟨by simp, hcond.1, hcond.2⟩]
    rfl

/-! ### Pipeline length lemmas -/

/-- Taking `min n (length l)` elements is the same as taking `n`. -/
theorem take_min_length {α : Type} (l : List α) (n : Nat) :
    l.take (min n l.length) = l.take n := by
  rcases le_total n l.length with h | h
  · rw [min_eq_left h]
  · rw [min_eq_right h, List.take_length, List.take_of_length_le h]

/-- The prerank list has `min CURATOR_PRERANK_COUNT (number of candidates)`
elements. -/
theorem prerank_list_length (p : Profile) (hour : Nat) (candidates : List Song)
    (enable_time_matching : Bool) :
    (prerank_list p hour candidates enable_time_matching).length =
      min CURATOR_PRERANK_COUNT candidates.length := by
  cases enable_time_matching <;>
    simp [prerank_list, boost_songs_by_time, apply_collaborative_filtering,
      List.length_mergeSort, List.length_take]

/-- A successful rerank mapping returns exactly one song per API result. -/
theorem buildReranked_length (songs : List Song) (rs : List (Nat × ℚ)) (pos : Nat)
    (out : List Song) (h : buildReranked songs rs pos = some out) :
    out.length = rs.length := by
  induction rs generalizing pos out with
  | nil =>
    simp only [buildReranked, Option.some.injEq] at h
    subst h
    rfl
  | cons r rest ih =>
    obtain ⟨i, sc⟩ := r
    simp only [buildReranked] at h
    cases hg : songs[i]? with
    | none =>
      rw [hg] at h
      simp at h
    | some s =>
      rw [hg] at h
      cases hb : buildReranked songs rest (pos + 1) with
      | none =>
        rw [hb] at h
        simp at h
      | some tl =>
        rw [hb] at h
        simp only [Option.map_some', Option.some.injEq] at h
        subst h
        simp [ih (pos + 1) tl hb]

/-- On an API exception, `rerank` returns the first `top_n` songs in their
existing order. -/
theorem rerank_none_eq_take (songs : List Song) (top_n : Nat) :
    rerank songs top_n none = songs.take top_n := by
  by_cases he : songs.isEmpty = true
  · rw [List.isEmpty_iff.mp he]
    simp [rerank]
  · unfold rerank
    rw [if_neg he]
    exact take_min_length songs top_n

/-- The reranked list never exceeds `top_n` nor the input length, provided
the API returns at most that many results (Cohere's `top_n` contract). -/
theorem rerank_length_le (songs : List Song) (top_n : Nat)
    (api : Option (List (Nat × ℚ)))
    (hapi : ∀ rs, api = some rs → rs.length ≤ top_n ∧ rs.length ≤ songs.length) :
    (rerank songs top_n api).length ≤ top_n ∧
    (rerank songs top_n api).length ≤ songs.length := by
  unfold rerank
  by_cases he : songs.isEmpty = true
  · simp [he]
  · rw [if_neg he]
    cases api with
    | none =>
      simp only [List.length_take]
      omega
    | some rs =>
      have hrs := hapi rs rfl
      cases hb : buildReranked songs rs 0 with
      | some out =>
        simp only [hb]
        have := buildReranked_length songs rs 0 out hb
        omega
      | none =>
        simp only [hb, List.length_take]
        omega

/-! ### Claim C7: collaborative scoring weights -/

/-- C7: collaborative filtering scores every candidate as
`semantic*0.4 + profile*0.2 + genre*0.3` with the configured weights, and in
the claim's scenario (pop 0.8 / rock 0.2 profile, equal semantic scores `s`)
the pop candidate's combined score strictly exceeds the rock candidate's. -/
theorem C7_collaborative_scoring (p : Profile) (candidates : List Song)
    (song : Song) (s : ℚ) :
    apply_collaborative_filtering p candidates = candidates.map (scoreCandidate p) ∧
    (scoreCandidate p song).score = some
      (song.score.getD (1/2) * W_SEMANTIC +
        calculate_song_match_score p song.features song.genre (some song.artist) *
          W_PREFERENCE +
        get_genre_preference p (song.genre.getD "") * W_AUDIO) ∧
    (W_SEMANTIC, W_PREFERENCE, W_AUDIO) = (4/10, 2/10, 3/10) ∧
    (scoreCandidate scenarioProfile (popSong s)).score.getD 0 >
      (scoreCandidate scenarioProfile (rockSong s)).score.getD 0 := by
  refine ⟨rfl, rfl, rfl, ?_⟩
  have hpop : (scoreCandidate scenarioProfile (popSong s)).score.getD 0 =
      s * (4/10) + 4/10 := by
    simp +decide [scoreCandidate, popSong, scenarioProfile, initialProfile,
      calculate_song_match_score, matchContributions, get_genre_preference,
      listMean, List.lookup, W_SEMANTIC, W_PREFERENCE, W_AUDIO]
    ring
  have hrock : (scoreCandidate scenarioProfile (rockSong s)).score.getD 0 =
      s * (4/10) + 1/10 := by
    simp +decide [scoreCandidate, rockSong, scenarioProfile, initialProfile,
      calculate_song_match_score, matchContributions, get_genre_preference,
      listMean, List.lookup, W_SEMANTIC, W_PREFERENCE, W_AUDIO]
    ring
  rw [hpop, hrock]
  linarith

/-! ### Claim C8: monotonic truncation -/

/-- C8 (counterexample): with a single input candidate the claimed chain
fails, because the configured `CURATOR_PRERANK_COUNT = 30` is not at most the
input length 1. -/
theorem C8_configured_chain_counterexample :
    ¬ ((curate_recommendations initialProfile 8 none [sampleSong] false
          false).recommendations.length ≤ FINAL_RECOMMENDATION_COUNT ∧
       FINAL_RECOMMENDATION_COUNT ≤ CURATOR_PRERANK_COUNT ∧
       CURATOR_PRERANK_COUNT ≤ ([sampleSong] : List Song).length) := by
  intro h
  have h3 := h.2.2
  norm_num [CURATOR_PRERANK_COUNT] at h3

/-- C8 (amended): the truncation chain holds with the actual per-run stage
sizes: `len(final) ≤ FINAL_RECOMMENDATION_COUNT`, `len(final)` is at most the
actual prerank size, which is `min(CURATOR_PRERANK_COUNT, len(input))`, hence
at most both `CURATOR_PRERANK_COUNT` and `len(input)` — provided the rerank
API honours its `top_n` contract (at most `FINAL_RECOMMENDATION_COUNT`
results, no more than the documents sent). -/
theorem C8_monotonic_truncation (p : Profile) (hour : Nat)
    (api : Option (List (Nat × ℚ))) (candidates : List Song)
    (enable_time_matching enable_reranking : Bool)
    (hapi : ∀ rs, api = some rs → rs.length ≤ FINAL_RECOMMENDATION_COUNT ∧
      rs.length ≤ min CURATOR_PRERANK_COUNT candidates.length) :
    (curate_recommendations p hour api candidates enable_time_matching
        enable_reranking).recommendations.length ≤ FINAL_RECOMMENDATION_COUNT ∧
    (curate_recommendations p hour api candidates enable_time_matching
        enable_reranking).recommendations.length ≤
      (curate_recommendations p hour api candidates enable_time_matching
        enable_reranking).metadata.prerank_count ∧
    (curate_recommendations p hour api candidates enable_time_matching
        enable_reranking).metadata.prerank_count ≤ CURATOR_PRERANK_COUNT ∧
    (curate_recommendations p hour api candidates enable_time_matching
        enable_reranking).metadata.prerank_count ≤ candidates.length := by
  have htop := prerank_list_length p hour candidates enable_time_matching
  unfold curate_recommendations
  dsimp only
  by_cases hc : enable_reranking = true ∧
      0 < (prerank_list p hour candidates enable_time_matching).length
  · rw [if_pos hc]
    have hr := rerank_length_le (prerank_list p hour candidates enable_time_matching)
      FINAL_RECOMMENDATION_COUNT api
      (by
        intro rs h
        have := hapi rs h
        omega)
    refine ⟨hr.1, hr.2, ?_, ?_⟩ <;> omega
  · rw [if_neg hc]
    simp only [List.length_take]
    omega

/-- C8 (witness): the amended chain instantiated on a concrete one-candidate
run without reranking. -/
theorem C8_witness :
    (curate_recommendations initialProfile 8 none [sampleSong] false
        false).recommendations.length ≤ FINAL_RECOMMENDATION_COUNT ∧
    (curate_recommendations initialProfile 8 none [sampleSong] false
        false).recommendations.length ≤
      (curate_recommendations initialProfile 8 none [sampleSong] false
        false).metadata.prerank_count ∧
    (curate_recommendations initialProfile 8 none [sampleSong] false
        false).metadata.prerank_count ≤ CURATOR_PRERANK_COUNT ∧
    (curate_recommendations initialProfile 8 none [sampleSong] false
        false).metadata.prerank_count ≤ ([sampleSong] : List Song).length :=
  C8_monotonic_truncation initialProfile 8 none [sampleSong] false false
    (by intro rs h; exact Option.noConfusion h)

/-! ### Claim C3: graceful reranker degradation -/

/-- C3 (counterexample): when the rerank call raises (API oracle `none`) with
reranking enabled, the returned metadata still records
`reranking_enabled = True` — it does not mark reranking as not applied. -/
theorem C3_metadata_counterexample :
    (curate_recommendations initialProfile 8 none [sampleSong] false
        true).metadata.reranking_enabled = true ∧
    ¬ ((curate_recommendations initialProfile 8 none [sampleSong] false
        true).metadata.reranking_enabled = false) := by
  refine ⟨rfl, ?_⟩
  intro h
  rw [show (curate_recommendations initialProfile 8 none [sampleSong] false
      true).metadata.reranking_enabled = true from rfl] at h
  exact Bool.noConfusion h

/-- C3 (amended): if the external rerank call raises (or reranking is
disabled), the pipeline does not abort: the final list is the first
`FINAL_RECOMMENDATION_COUNT` items of the prerank list in existing score
order, and `get_recommendations` still returns `success = True` with a
non-empty list given non-empty candidates; however the metadata's
`reranking_enabled` flag stays `True` on an exception (it records only the
request, not whether reranking was applied). -/
theorem C3_rerank_failure_degrades (p : Profile) (hour : Nat)
    (candidates : List Song) (enable_time_matching : Bool)
    (api : Option (List (Nat × ℚ))) (hne : candidates ≠ []) :
    (get_recommendations p hour none candidates enable_time_matching true).success =
      some true ∧
    (get_recommendations p hour none candidates enable_time_matching
        true).recommendations ≠ [] ∧
    (get_recommendations p hour none candidates enable_time_matching
        true).recommendations =
      (prerank_list p hour candidates enable_time_matching).take
        FINAL_RECOMMENDATION_COUNT ∧
    (curate_recommendations p hour api candidates enable_time_matching
        false).recommendations =
      (prerank_list p hour candidates enable_time_matching).take
        FINAL_RECOMMENDATION_COUNT ∧
    (curate_recommendations p hour none candidates enable_time_matching
        true).metadata.reranking_enabled = true := by
  have hne' : ¬candidates.isEmpty = true := by
    simpa [List.isEmpty_iff] using hne
  have hlen : 0 < candidates.length := List.length_pos.mpr hne
  have htop : 0 < (prerank_list p hour candidates enable_time_matching).length := by
    rw [prerank_list_length]
    simp [CURATOR_PRERANK_COUNT]
    omega
  have hcur : (curate_recommendations p hour none candidates enable_time_matching
      true).recommendations =
      (prerank_list p hour candidates enable_time_matching).take
        FINAL_RECOMMENDATION_COUNT := by
    unfold curate_recommendations
    dsimp only
    rw [if_pos ⟨rfl, htop⟩]
    exact rerank_none_eq_take _ _
  refine ⟨?_, ?_, ?_, ?_, rfl⟩
  · unfold get_recommendations
    rw [if_neg hne']
  · unfold get_recommendations
    rw [if_neg hne']
    dsimp only
    rw [hcur]
    intro hnil
    have : ((prerank_list p hour candidates enable_time_matching).take
        FINAL_RECOMMENDATION_COUNT).length = 0 := by
      rw [hnil]
      rfl
    rw [List.length_take] at this
    have h10 : (0 : Nat) < FINAL_RECOMMENDATION_COUNT := by
      norm_num [FINAL_RECOMMENDATION_COUNT]
    omega
  · unfold get_recommendations
    rw [if_neg hne']
    dsimp only
    exact hcur
  · unfold curate_recommendations
    dsimp only
    rw [if_neg (by simp)]

/-- C3 (witness): graceful degradation on a concrete one-candidate run with a
raising rerank call. -/
theorem C3_witness :
    (get_recommendations initialProfile 8 none [sampleSong] false true).success =
      some true ∧
    (get_recommendations initialProfile 8 none [sampleSong] false
        true).recommendations ≠ [] ∧
    (get_recommendations initialProfile 8 none [sampleSong] false
        true).recommendations =
      (prerank_list initialProfile 8 [sampleSong] false).take
        FINAL_RECOMMENDATION_COUNT ∧
    (curate_recommendations initialProfile 8 none [sampleSong] false
        false).recommendations =
      (prerank_list initialProfile 8 [sampleSong] false).take
        FINAL_RECOMMENDATION_COUNT ∧
    (curate_recommendations initialProfile 8 none [sampleSong] false
        true).metadata.reranking_enabled = true :=
  C3_rerank_failure_degrades initialProfile 8 [sampleSong] false none
    (by intro h; exact List.noConfusion h)

/-! ### Claim C2: zero candidates short-circuit -/

/-- C2: with zero retrieved candidates, `get_recommendations` returns (not
raises) a result with an empty recommendation list and the explanatory
message, and only the retrieval stage has run — but the returned dict carries
no `success` key at all (modelled `success = none`), rather than the
`success = False` the spec states: reading `result['success']`, as the
repository's own Streamlit front end does, raises `KeyError` on this path. -/
theorem C2_empty_candidates (p : Profile) (hour : Nat)
    (api : Option (List (Nat × ℚ))) (enable_time_matching enable_reranking : Bool) :
    get_recommendations p hour api [] enable_time_matching enable_reranking =
      { success := none, recommendations := [],
        message := some "No songs found matching your query",
        stages := ["retrieval"] } ∧
    (get_recommendations p hour api [] enable_time_matching
        enable_reranking).success ≠ some false := by
  refine ⟨rfl, ?_⟩
  intro h
  exact Option.noConfusion h

end MusicRec
